import Mathlib

/-!
# daemon/main.c: startup, event loop and shutdown of the resolver daemon

`main.c` consists of two functions: `signal_handler`, the callback of the
SIGINT watcher, and `main`, a straight-line sequence of calls into libuv and
into the worker.  Neither function branches and neither looks at the value a
call returns, except for the value of `uv_run`, which `main` returns.

The embedding records every call the two functions make, with its arguments,
in the order it is made (the *trace*), and keeps the part of the libuv state
that decides what the event loop does: which handles are active on which loop
and which loops have their stop flag set.  The outcome of every call that can
fail is supplied from outside (`Env`), so that every theorem quantified over
`env` covers success and failure of each startup step that reports its
result.

Two things are taken for granted throughout and are not among the outcomes
`Env` ranges over: `uv_default_loop()` returns the default loop (not `NULL`),
and every call `main` makes returns to `main`, whatever result it reports.
The only events that wake the loop in this model are signals; no datagram
arrives, so no query is ever in flight.
-/

namespace Daemon

/-! ## Objects and calls -/

/-- Addresses that occur in `main.c`: the five automatic variables of `main`,
the loop returned by `uv_default_loop()`, and any other address (a
`signal_handler` may be handed any handle). -/
inductive Ptr
  | mm
  | sigint
  | udp_sock
  | anyaddr
  | worker
  | default_loop
  | other (a : Nat)
deriving DecidableEq

/-- Functions that are passed as a signal callback in `main.c`. -/
inductive uv_signal_cb
  | signal_handler
deriving DecidableEq

/-- The run mode `main` passes to `uv_run`. -/
inductive uv_run_mode
  | UV_RUN_DEFAULT
deriving DecidableEq

/-- Operands of `sizeof` in `main.c`. -/
inductive SizeOf
  | uv_udp_t
deriving DecidableEq

/-- The signal number of SIGINT. -/
def SIGINT : Int := 2

/-- The loop `uv_default_loop()` returns when it succeeds: the same
process-wide loop at every call.  The accessor failing (returning `NULL`
because the default loop could not be set up) is not modelled: `main.c` hands
whatever it gets to `uv_signal_init` unchecked, and what happens then is
outside this development.  Every statement below is about executions in
which the accessor returned the loop. -/
def uv_default_loop : Ptr := Ptr.default_loop

/-- One entry of the trace: a call made by `main` or by `signal_handler`, with
its arguments, or (`signal_handler`) the event loop invoking that callback. -/
inductive Call
  | mm_ctx_init (ctx : Ptr)
  | uv_signal_init (loop handle : Ptr)
  | uv_signal_start (handle : Ptr) (cb : uv_signal_cb) (signum : Int)
  | memset (dst : Ptr) (c : Int) (n : SizeOf)
  | uv_ip4_addr (ip : String) (port : Int) (addr : Ptr)
  | uv_udp_init (loop handle : Ptr)
  | uv_udp_bind (handle addr : Ptr) (flags : Nat)
  | worker_init (w ctx : Ptr)
  | worker_start (handle w : Ptr)
  | uv_run (loop : Ptr) (mode : uv_run_mode)
  | worker_stop (handle : Ptr)
  | worker_deinit (w : Ptr)
  | uv_stop (loop : Ptr)
  | uv_signal_stop (handle : Ptr)
  | signal_handler (handle : Ptr) (signum : Int)
deriving DecidableEq

/-- The result of each call that can fail: `0` is success, anything else is an
error code.  `main.c` never reads it. -/
abbrev Env := Call → Int

/-- The startup calls whose result can be a failure. -/
def Call.canFail : Call → Bool
  | .uv_signal_init _ _ => true
  | .uv_signal_start _ _ _ => true
  | .uv_ip4_addr _ _ _ => true
  | .uv_udp_init _ _ => true
  | .uv_udp_bind _ _ _ => true
  | .worker_init _ _ => true
  | .worker_start _ _ => true
  | _ => false

/-! ## The part of the libuv state the event loop depends on -/

/-- State of one handle: the loop it was initialised on, whether it is active
(keeps the loop alive), and for a started signal watcher its callback and
signal number. -/
structure HandleSt where
  loop : Ptr
  active : Bool
  watch : Option (uv_signal_cb × Int)
deriving DecidableEq

/-- Handles initialised so far and the loops whose stop flag is set. -/
structure Uv where
  handles : List (Ptr × HandleSt)
  stop_flag : List Ptr
deriving DecidableEq

/-- State before `main` has called anything. -/
def Uv.init : Uv := ⟨[], []⟩

/-- Look a handle up by address. -/
def Uv.find (st : Uv) (h : Ptr) : Option HandleSt :=
  (st.handles.find? (fun e => e.1 == h)).map Prod.snd

/-- A handle initialised on `loop`: known to the loop, not yet active. -/
def Uv.addHandle (st : Uv) (loop h : Ptr) : Uv :=
  { st with handles := st.handles.filter (fun e => !(e.1 == h)) ++ [(h, ⟨loop, false, none⟩)] }

/-- Change the state of an initialised handle; an unknown handle is left out. -/
def Uv.modify (st : Uv) (h : Ptr) (f : HandleSt → HandleSt) : Uv :=
  { st with handles := st.handles.map (fun e => if e.1 == h then (e.1, f e.2) else e) }

/-- A loop is alive while one of its handles is active (`uv__loop_alive`). -/
def Uv.alive (st : Uv) (loop : Ptr) : Bool :=
  st.handles.any (fun e => e.2.loop == loop && e.2.active)

/-- Whether the stop flag of `loop` is set. -/
def Uv.stopping (st : Uv) (loop : Ptr) : Bool :=
  st.stop_flag.contains loop

/-- Modelled from the spec: `worker_start` is defined in worker.c, which is not
among the source files.  The spec says of it: "`start(socket)`: registers a
read-callback with the socket's readiness events".  A handle with a read
callback registered is an active handle of its loop. -/
def worker_start_effect (handle : Ptr) (st : Uv) : Uv :=
  st.modify handle (fun x => { x with active := true })

/-- Modelled from the spec: `worker_stop` is defined in worker.c, which is not
among the source files.  The spec says of it: "`stop(socket)`: deregisters
the read-callback".  The handle is no longer active. -/
def worker_stop_effect (handle : Ptr) (st : Uv) : Uv :=
  st.modify handle (fun x => { x with active := false })

/-- What a successful call does to the loop state, after libuv's documented
behaviour: `uv_signal_init` and `uv_udp_init` attach the handle to the loop,
`uv_signal_start` activates the watcher for its signal with its callback,
`uv_signal_stop` deactivates it and forgets the signal, `uv_stop` sets the
stop flag of the loop.  The other calls leave the handles and the stop flag
as they are. -/
def Call.effect : Call → Uv → Uv
  | .uv_signal_init loop h, st => st.addHandle loop h
  | .uv_udp_init loop h, st => st.addHandle loop h
  | .uv_signal_start h cb signum, st =>
      st.modify h (fun x => { x with active := true, watch := some (cb, signum) })
  | .uv_signal_stop h, st =>
      st.modify h (fun x => { x with active := false, watch := none })
  | .worker_start h _, st => worker_start_effect h st
  | .worker_stop h, st => worker_stop_effect h st
  | .uv_stop loop, st => { st with stop_flag := loop :: st.stop_flag }
  | _, st => st

/-- Trace so far and loop state. -/
structure World where
  trace : List Call
  uv : Uv
deriving DecidableEq

/-- Before `main` starts. -/
def World.init : World := ⟨[], Uv.init⟩

/-- Make one call: it is appended to the trace and, unless it is a call that
can fail and `env` says it failed, its effect is applied. -/
def World.call (env : Env) (w : World) (c : Call) : World :=
  { trace := w.trace ++ [c]
    uv := if c.canFail && env c != 0 then w.uv else c.effect w.uv }

/-! ## signal_handler (main.c lines 5-9) -/

/-- The body of the handler: `uv_stop(uv_default_loop()); uv_signal_stop(handle);`.
`signum` is not used. -/
def signal_handler (handle : Ptr) (_signum : Int) : List Call :=
  [Call.uv_stop uv_default_loop, Call.uv_signal_stop handle]

/-- The calls a callback makes when the loop invokes it. -/
def uv_signal_cb.body : uv_signal_cb → Ptr → Int → List Call
  | .signal_handler => Daemon.signal_handler

/-- Apply the effects of calls that cannot fail, in order. -/
def Uv.exec (st : Uv) (cs : List Call) : Uv :=
  cs.foldl (fun s c => c.effect s) st

/-! ## uv_run -/

/-- Deliver one signal to the given handles of `loop`: every handle that is, at
the moment its turn comes, an active watcher of that signal has its callback
invoked with the handle and the signal number.  A signal nobody watches is
not dispatched. -/
def deliver (loop : Ptr) (signum : Int) : List Ptr → Uv → List Call × Uv
  | [], st => ([], st)
  | h :: hs, st =>
    match st.find h with
    | some ⟨l, true, some (cb, s)⟩ =>
      if l = loop ∧ s = signum then
        let body := cb.body h signum
        let r := deliver loop signum hs (st.exec body)
        (Call.signal_handler h signum :: body ++ r.1, r.2)
      else deliver loop signum hs st
    | _ => deliver loop signum hs st

/-- One poll of the loop: the signals that are pending are dispatched one
after the other within the same iteration (`uv__signal_event`). -/
def uv__signal_event (loop : Ptr) : List Int → Uv → List Call × Uv
  | [], st => ([], st)
  | s :: rest, st =>
    let r1 := deliver loop s (st.handles.map Prod.fst) st
    let r2 := uv__signal_event loop rest r1.2
    (r1.1 ++ r2.1, r2.2)

/-- What a run of the loop amounts to: the calls made from callbacks while it
ran, the state it left, and its return value (`none`: it never returns). -/
structure RunResult where
  calls : List Call
  uv : Uv
  ret : Option Int
deriving DecidableEq

/-- The loop of libuv's `uv_run(loop, UV_RUN_DEFAULT)`, documented as: "Runs
the event loop until there are no more active and referenced handles or
requests.  Returns non-zero if uv_stop() was called and there are still
active handles or requests.  Returns zero in all other cases."
`polls` lists, for each time the loop waits, the signals that wake it.  While
the loop is alive and its stop flag is clear it waits and dispatches; then it
clears the stop flag and returns whether it is still alive.  When the loop
waits and nothing more arrives, it does not return. -/
def uv_run (polls : List (List Int)) (loop : Ptr) (mode : uv_run_mode) (st : Uv) : RunResult :=
  match polls with
  | [] =>
    if st.alive loop && !st.stopping loop then ⟨[], st, none⟩
    else ⟨[], { st with stop_flag := st.stop_flag.filter (fun l => !(l == loop)) },
          some (if st.alive loop then 1 else 0)⟩
  | batch :: rest =>
    if st.alive loop && !st.stopping loop then
      let r1 := uv__signal_event loop batch st
      let r2 := uv_run rest loop mode r1.2
      ⟨r1.1 ++ r2.calls, r2.uv, r2.ret⟩
    else ⟨[], { st with stop_flag := st.stop_flag.filter (fun l => !(l == loop)) },
          some (if st.alive loop then 1 else 0)⟩

/-! ## main (main.c lines 11-45) -/

/-- The automatic variables of `main` whose address is taken, in the order of
their declarations (main.c lines 13, 19, 25, 27, 33): `mm`, `sigint`,
`udp_sock`, `anyaddr`, `worker`.  They live in the frame of `main`: their
storage exists from the entry into `main` until `main` returns. -/
def main_locals : List Ptr :=
  [Ptr.mm, Ptr.sigint, Ptr.udp_sock, Ptr.anyaddr, Ptr.worker]

/-- Trace and exit status of the process (`none`: `main` never returns), and
the objects whose storage was given up, in order.  `main.c` gives up storage
in one place only, the `return` of `main`, which ends the lifetime of its
automatic variables; that happens after every call of `trace`. -/
structure Outcome where
  trace : List Call
  status : Option Int
  released : List Ptr
deriving DecidableEq

/-- The body of `main`, for any behaviour `run` of `uv_run`. -/
def main_with (run : Ptr → uv_run_mode → Uv → RunResult) (env : Env) : Outcome :=
  let w := World.init
  let w := w.call env (Call.mm_ctx_init Ptr.mm)
  let loop := uv_default_loop
  -- Block signals.
  let w := w.call env (Call.uv_signal_init loop Ptr.sigint)
  let w := w.call env (Call.uv_signal_start Ptr.sigint uv_signal_cb.signal_handler SIGINT)
  -- Bind to sockets.
  let w := w.call env (Call.memset Ptr.udp_sock 0 SizeOf.uv_udp_t)
  let w := w.call env (Call.uv_ip4_addr "0.0.0.0" 3535 Ptr.anyaddr)
  let w := w.call env (Call.uv_udp_init loop Ptr.udp_sock)
  let w := w.call env (Call.uv_udp_bind Ptr.udp_sock Ptr.anyaddr 0)
  -- Start a worker.
  let w := w.call env (Call.worker_init Ptr.worker Ptr.mm)
  let w := w.call env (Call.worker_start Ptr.udp_sock Ptr.worker)
  -- Run the event loop.
  let r := run loop uv_run_mode.UV_RUN_DEFAULT w.uv
  let w : World := ⟨w.trace ++ [Call.uv_run loop uv_run_mode.UV_RUN_DEFAULT] ++ r.calls, r.uv⟩
  match r.ret with
  | none => ⟨w.trace, none, []⟩
  | some ret =>
    -- Cleanup.
    let w := w.call env (Call.worker_stop Ptr.udp_sock)
    let w := w.call env (Call.worker_deinit Ptr.worker)
    -- return ret: the frame of main is given up.
    ⟨w.trace, some ret, main_locals⟩

/-- The process: `main` over libuv's `uv_run`, with `polls` the signals that
arrive while the loop runs. -/
def main (env : Env) (polls : List (List Int)) : Outcome :=
  main_with (uv_run polls) env

/-- Every call succeeds. -/
def envOk : Env := fun _ => 0

/-! ## Vocabulary for the statements -/

/-- The calls `main` makes before it runs the loop, in source order
(main.c lines 14-35). -/
def startup_calls : List Call :=
  [ Call.mm_ctx_init Ptr.mm,
    Call.uv_signal_init uv_default_loop Ptr.sigint,
    Call.uv_signal_start Ptr.sigint uv_signal_cb.signal_handler SIGINT,
    Call.memset Ptr.udp_sock 0 SizeOf.uv_udp_t,
    Call.uv_ip4_addr "0.0.0.0" 3535 Ptr.anyaddr,
    Call.uv_udp_init uv_default_loop Ptr.udp_sock,
    Call.uv_udp_bind Ptr.udp_sock Ptr.anyaddr 0,
    Call.worker_init Ptr.worker Ptr.mm,
    Call.worker_start Ptr.udp_sock Ptr.worker ]

/-- The call that runs the loop (main.c line 38). -/
def run_call : Call := Call.uv_run uv_default_loop uv_run_mode.UV_RUN_DEFAULT

/-- The calls `main` makes after the loop has returned (main.c lines 41-42). -/
def cleanup_calls : List Call :=
  [ Call.worker_stop Ptr.udp_sock, Call.worker_deinit Ptr.worker ]

/-- The world in which `main` calls `uv_run`. -/
def boot (env : Env) : World :=
  startup_calls.foldl (World.call env) World.init

/-- What one invocation of the handler on the SIGINT watcher adds to the
trace: the invocation itself and the two calls of its body. -/
def handler_run : List Call :=
  Call.signal_handler Ptr.sigint SIGINT :: signal_handler Ptr.sigint SIGINT

/-- State of the SIGINT watcher when the loop starts: not initialised, or
initialised and (not) started. -/
def sigState (env : Env) : Option Bool :=
  if env (Call.uv_signal_init uv_default_loop Ptr.sigint) = 0 then
    some (decide (env (Call.uv_signal_start Ptr.sigint uv_signal_cb.signal_handler SIGINT) = 0))
  else none

/-- State of the UDP handle when the loop starts: not initialised, or
initialised and (not) receiving. -/
def udpState (env : Env) : Option Bool :=
  if env (Call.uv_udp_init uv_default_loop Ptr.udp_sock) = 0 then
    some (decide (env (Call.worker_start Ptr.udp_sock Ptr.worker) = 0))
  else none

/-- Table entry of the SIGINT watcher in each of its states. -/
def sigEntry : Option Bool → List (Ptr × HandleSt)
  | none => []
  | some false => [(Ptr.sigint, ⟨uv_default_loop, false, none⟩)]
  | some true =>
    [(Ptr.sigint, ⟨uv_default_loop, true, some (uv_signal_cb.signal_handler, SIGINT)⟩)]

/-- Table entry of the UDP handle in each of its states. -/
def udpEntry : Option Bool → List (Ptr × HandleSt)
  | none => []
  | some a => [(Ptr.udp_sock, ⟨uv_default_loop, a, none⟩)]

/-- The loop states `main` can be in from `uv_run` on. -/
def shape (s u : Option Bool) (stop : List Ptr) : Uv :=
  ⟨sigEntry s ++ udpEntry u, stop⟩

/-- Whether SIGINT is among the signals that arrive. -/
def sigintArrives (polls : List (List Int)) : Bool :=
  polls.any (fun b => b.contains SIGINT)

/-- Calls of the functions `main` uses during startup and to run the loop. -/
def Call.isStartup : Call → Bool
  | .mm_ctx_init _ => true
  | .uv_signal_init _ _ => true
  | .uv_signal_start _ _ _ => true
  | .memset _ _ _ => true
  | .uv_ip4_addr _ _ _ => true
  | .uv_udp_init _ _ => true
  | .uv_udp_bind _ _ _ => true
  | .worker_init _ _ => true
  | .worker_start _ _ => true
  | .uv_run _ _ => true
  | _ => false

/-- Calls of `uv_run`. -/
def Call.isRun : Call → Bool
  | .uv_run _ _ => true
  | _ => false

/-- Operations on the worker. -/
def Call.isWorkerOp : Call → Bool
  | .worker_init _ _ => true
  | .worker_start _ _ => true
  | .worker_stop _ => true
  | .worker_deinit _ => true
  | _ => false

/-- Invocations of `signal_handler` by the loop. -/
def Call.isHandlerEntry : Call → Bool
  | .signal_handler _ _ => true
  | _ => false

/-- The loop a call names, for the calls that take one. -/
def Call.loopArg : Call → Option Ptr
  | .uv_signal_init loop _ => some loop
  | .uv_udp_init loop _ => some loop
  | .uv_run loop _ => some loop
  | .uv_stop loop => some loop
  | _ => none

/-- Outcomes in which binding fails because the address is in use
(`UV_EADDRINUSE`) and every other call succeeds. -/
def envBindInUse : Env :=
  fun c => if c = Call.uv_udp_bind Ptr.udp_sock Ptr.anyaddr 0 then -98 else 0

/-- Outcomes in which registering the signal watcher and initialising the
worker all fail, and the other calls succeed. -/
def envStartupFails : Env :=
  fun c =>
    if c = Call.uv_signal_init uv_default_loop Ptr.sigint then -22
    else if c = Call.uv_signal_start Ptr.sigint uv_signal_cb.signal_handler SIGINT then -22
    else if c = Call.worker_init Ptr.worker Ptr.mm then -12
    else 0

/-- Closed form of `uv_run` on the states `main` can start it in: with the
watcher started the run ends at the first SIGINT, after one invocation of the
handler, and reports whether the UDP handle is still active; without a
started watcher it returns `0` at once when nothing is active and otherwise
never returns. -/
def run_spec (s u : Option Bool) (polls : List (List Int)) : RunResult :=
  if s = some true then
    if sigintArrives polls then
      ⟨handler_run, shape (some false) u [], some (if u = some true then 1 else 0)⟩
    else ⟨[], shape s u [], none⟩
  else if u = some true then ⟨[], shape s u [], none⟩
  else ⟨[], shape s u [], some 0⟩

/-! ## Lemmas -/

/-- The calls `main` has made when it reaches `uv_run`. -/
theorem boot_trace (env : Env) : (boot env).trace = startup_calls := by
  simp [boot, startup_calls, World.call, World.init]

/-- The loop state when `main` reaches `uv_run`, by outcome of the startup
calls. -/
theorem boot_uv (env : Env) : (boot env).uv = shape (sigState env) (udpState env) [] := by
  simp only [boot, startup_calls, List.foldl, World.call, World.init, Call.canFail, Call.effect,
    worker_start_effect,
    sigState, udpState, shape, uv_default_loop, SIGINT, Uv.init]
  by_cases a : env (Call.uv_signal_init Ptr.default_loop Ptr.sigint) = 0 <;>
  by_cases b : env (Call.uv_signal_start Ptr.sigint uv_signal_cb.signal_handler 2) = 0 <;>
  by_cases c : env (Call.uv_udp_init Ptr.default_loop Ptr.udp_sock) = 0 <;>
  by_cases d : env (Call.worker_start Ptr.udp_sock Ptr.worker) = 0 <;>
  simp [a, b, c, d, Uv.addHandle, Uv.modify, worker_start_effect, sigEntry, udpEntry, uv_default_loop, SIGINT]

/-- The outcome of `main` in terms of the run of the loop. -/
theorem main_with_eq (run : Ptr → uv_run_mode → Uv → RunResult) (env : Env) :
    main_with run env =
      match (run uv_default_loop uv_run_mode.UV_RUN_DEFAULT (boot env).uv).ret with
      | none =>
        ⟨startup_calls ++ run_call ::
          (run uv_default_loop uv_run_mode.UV_RUN_DEFAULT (boot env).uv).calls, none, []⟩
      | some ret =>
        ⟨startup_calls ++ run_call ::
          ((run uv_default_loop uv_run_mode.UV_RUN_DEFAULT (boot env).uv).calls ++ cleanup_calls),
          some ret, main_locals⟩ := by
  have hb : boot env = List.foldl (World.call env) World.init startup_calls := rfl
  cases h : (run uv_default_loop uv_run_mode.UV_RUN_DEFAULT (boot env).uv).ret <;>
  simp [main_with, hb, h, startup_calls, World.call, World.init, run_call, cleanup_calls] at * <;>
  simp [h]

/-- The default loop is alive when the watcher or the UDP handle is active. -/
theorem alive_shape (s u : Option Bool) (stop : List Ptr) :
    (shape s u stop).alive uv_default_loop = (s == some true || u == some true) := by
  rcases s with _ | _ | _ <;> rcases u with _ | _ | _ <;>
  simp [shape, sigEntry, udpEntry, Uv.alive, uv_default_loop]

/-- Delivery of one signal: the handler runs when the signal is SIGINT and the
watcher is started, and nothing happens otherwise. -/
theorem deliver_shape (s u : Option Bool) (stop : List Ptr) (sg : Int) :
    deliver uv_default_loop sg ((shape s u stop).handles.map Prod.fst) (shape s u stop) =
      if s = some true ∧ sg = SIGINT then
        (handler_run, shape (some false) u (uv_default_loop :: stop))
      else ([], shape s u stop) := by
  by_cases h : sg = SIGINT <;>
  rcases s with _ | _ | _ <;> rcases u with _ | _ | _ <;>
  simp [shape, sigEntry, udpEntry, deliver, Uv.find, Uv.exec, Call.effect, Uv.modify,
    uv_signal_cb.body, signal_handler, handler_run, uv_default_loop, h] <;>
  simp_all [SIGINT, eq_comm]

/-- Dispatch of the signals of one poll: the handler runs once when SIGINT is
among them and the watcher is started. -/
theorem event_shape (s u : Option Bool) (stop : List Ptr) (batch : List Int) :
    uv__signal_event uv_default_loop batch (shape s u stop) =
      if s = some true ∧ SIGINT ∈ batch then
        (handler_run, shape (some false) u (uv_default_loop :: stop))
      else ([], shape s u stop) := by
  induction batch generalizing s stop with
  | nil => simp [uv__signal_event]
  | cons sg rest ih =>
    simp only [uv__signal_event, deliver_shape]
    by_cases hs : s = some true
    · by_cases hg : sg = SIGINT
      · simp [hs, hg, ih]
      · have hg2 : ¬ SIGINT = sg := fun e => hg e.symm
        simp [hs, hg, hg2, ih]
    · simp [hs, ih]

/-- The stop flags of a state in closed form. -/
theorem shape_stop_flag (s u : Option Bool) (stop : List Ptr) :
    (shape s u stop).stop_flag = stop := rfl

/-- Replacing the stop flags of a state in closed form. -/
theorem shape_restop (s u : Option Bool) (stop stop2 : List Ptr) :
    (⟨(shape s u stop).handles, stop2⟩ : Uv) = shape s u stop2 := rfl

/-- A run that finds the stop flag set returns at once. -/
theorem uv_run_stopping (s u : Option Bool) (polls : List (List Int)) (mode : uv_run_mode) :
    uv_run polls uv_default_loop mode (shape s u [uv_default_loop]) =
      ⟨[], shape s u [], some (if (s == some true || u == some true) then 1 else 0)⟩ := by
  cases polls <;>
  simp [uv_run, alive_shape, Uv.stopping, shape_stop_flag, shape_restop]

/-- The run of the loop from the state `main` starts it in. -/
theorem uv_run_shape (s u : Option Bool) (polls : List (List Int)) (mode : uv_run_mode) :
    uv_run polls uv_default_loop mode (shape s u []) = run_spec s u polls := by
  induction polls with
  | nil =>
    rcases s with _ | _ | _ <;> rcases u with _ | _ | _ <;>
    simp [uv_run, alive_shape, Uv.stopping, run_spec, sigintArrives, shape_stop_flag, shape_restop]
  | cons batch rest ih =>
    rcases s with _ | _ | _ <;> rcases u with _ | _ | _ <;>
    simp [uv_run, alive_shape, Uv.stopping, run_spec, sigintArrives, shape_stop_flag,
      shape_restop, event_shape] <;>
    first
      | (rw [ih]; simp [run_spec])
      | (by_cases hb : SIGINT ∈ batch
         · simp [hb, uv_run_stopping]
         · simp [hb, ih, run_spec, sigintArrives])

/-- The outcome of `main` in closed form. -/
theorem main_eq (env : Env) (polls : List (List Int)) :
    main env polls =
      match (run_spec (sigState env) (udpState env) polls).ret with
      | none =>
        ⟨startup_calls ++ run_call :: (run_spec (sigState env) (udpState env) polls).calls, none,
          []⟩
      | some ret =>
        ⟨startup_calls ++ run_call ::
          ((run_spec (sigState env) (udpState env) polls).calls ++ cleanup_calls), some ret,
          main_locals⟩ := by
  rw [main, main_with_eq, boot_uv, uv_run_shape]

/-- The world after the handler has run once satisfies the stop condition of
the default loop. -/
theorem stopping_after_handler (st : Uv) (handle : Ptr) (signum : Int) :
    (st.exec (signal_handler handle signum)).stopping uv_default_loop = true := by
  simp [Uv.exec, signal_handler, Call.effect, Uv.modify, Uv.stopping]

/-- A run of a loop whose stop flag is set returns without waiting. -/
theorem uv_run_of_stopping (polls : List (List Int)) (loop : Ptr) (mode : uv_run_mode) (st : Uv)
    (h : st.stopping loop = true) :
    (uv_run polls loop mode st).calls = [] ∧
      (uv_run polls loop mode st).ret = some (if st.alive loop then 1 else 0) := by
  cases polls <;> simp [uv_run, h]

/-! ## The claims -/

/-- C2: the exit status of `main` is the value `uv_run` returned, whatever
that value is and however `uv_run` behaves: it is zero exactly when the run
returned zero, and when the run never returns there is no exit status.  The
cleanup calls after the run leave it unchanged. -/
theorem exit_status_is_run_result (run : Ptr → uv_run_mode → Uv → RunResult) (env : Env) :
    (main_with run env).status =
        (run uv_default_loop uv_run_mode.UV_RUN_DEFAULT (boot env).uv).ret ∧
      ((main_with run env).status = some 0 ↔
        (run uv_default_loop uv_run_mode.UV_RUN_DEFAULT (boot env).uv).ret = some 0) := by
  have h : (main_with run env).status =
      (run uv_default_loop uv_run_mode.UV_RUN_DEFAULT (boot env).uv).ret := by
    rw [main_with_eq]
    cases (run uv_default_loop uv_run_mode.UV_RUN_DEFAULT (boot env).uv).ret <;> rfl
  exact ⟨h, by rw [h]⟩

/-- C5: for every handle and signal number the handler makes exactly two
calls, `uv_stop` on the default loop and then `uv_signal_stop` on the handle
it was invoked with; executing them sets the stop flag and then deactivates
that handle. -/
theorem signal_handler_calls (handle : Ptr) (signum : Int) (st : Uv) :
    signal_handler handle signum =
        [Call.uv_stop uv_default_loop, Call.uv_signal_stop handle] ∧
      st.exec (signal_handler handle signum) =
        (Call.uv_signal_stop handle).effect ((Call.uv_stop uv_default_loop).effect st) :=
  ⟨rfl, rfl⟩

/-- The calls made from callbacks during the run are none or one run of the
handler. -/
theorem run_spec_calls (s u : Option Bool) (polls : List (List Int)) :
    (run_spec s u polls).calls = [] ∨ (run_spec s u polls).calls = handler_run := by
  unfold run_spec
  split_ifs <;> simp

/-- The trace of `main`: the startup calls, the call of `uv_run`, what the
callbacks did, and the cleanup calls when the run returned. -/
theorem main_trace (env : Env) (polls : List (List Int)) :
    (main env polls).trace =
      startup_calls ++ run_call :: ((run_spec (sigState env) (udpState env) polls).calls ++
        if (main env polls).status = none then [] else cleanup_calls) := by
  rw [main_eq]
  cases (run_spec (sigState env) (udpState env) polls).ret <;> simp

/-- C7: the trace of `main` starts with the startup calls in source order,
arena initialisation, registration of the SIGINT watcher, initialisation of
the UDP handle and its bind to 0.0.0.0 port 3535, initialisation of the
worker with that arena and its start on that socket, followed by the run of
the loop; none of these functions is called again afterwards, so each step
happens exactly once and the bind precedes `worker_start`. -/
theorem startup_order (env : Env) (polls : List (List Int)) :
    ∃ post : List Call,
      (main env polls).trace =
        [ Call.mm_ctx_init Ptr.mm,
          Call.uv_signal_init uv_default_loop Ptr.sigint,
          Call.uv_signal_start Ptr.sigint uv_signal_cb.signal_handler SIGINT,
          Call.memset Ptr.udp_sock 0 SizeOf.uv_udp_t,
          Call.uv_ip4_addr "0.0.0.0" 3535 Ptr.anyaddr,
          Call.uv_udp_init uv_default_loop Ptr.udp_sock,
          Call.uv_udp_bind Ptr.udp_sock Ptr.anyaddr 0,
          Call.worker_init Ptr.worker Ptr.mm,
          Call.worker_start Ptr.udp_sock Ptr.worker,
          Call.uv_run uv_default_loop uv_run_mode.UV_RUN_DEFAULT ] ++ post ∧
      ∀ c ∈ post, c.isStartup = false := by
  refine ⟨(run_spec (sigState env) (udpState env) polls).calls ++
      if (main env polls).status = none then [] else cleanup_calls, ?_, ?_⟩
  · rw [main_trace]; simp [startup_calls, run_call]
  · intro c hc
    rcases run_spec_calls (sigState env) (udpState env) polls with h | h <;>
    rw [h] at hc <;>
    split_ifs at hc <;>
    simp [handler_run, signal_handler, cleanup_calls] at hc <;>
    rcases hc with rfl | rfl | rfl | rfl | rfl <;> rfl

/-- C1 (as stated, refuted): when the bind fails with "address in use", `main`
still starts the worker on the socket and still runs the loop. -/
theorem bind_failure_not_fatal :
    envBindInUse (Call.uv_udp_bind Ptr.udp_sock Ptr.anyaddr 0) ≠ 0 ∧
      Call.worker_start Ptr.udp_sock Ptr.worker ∈ (main envBindInUse [[SIGINT]]).trace ∧
      Call.uv_run uv_default_loop uv_run_mode.UV_RUN_DEFAULT ∈
        (main envBindInUse [[SIGINT]]).trace := by
  refine ⟨by simp [envBindInUse], ?_, ?_⟩ <;>
  rw [main_trace] <;> simp [startup_calls, run_call]

/-- C1 (amended): whatever `uv_udp_bind` returns, success or failure, `main`
does not look at it: directly after the bind it initialises the worker,
starts it on that socket and runs the loop. -/
theorem bind_result_ignored (env : Env) (polls : List (List Int)) :
    ∃ pre post : List Call,
      (main env polls).trace =
        pre ++ [ Call.uv_udp_bind Ptr.udp_sock Ptr.anyaddr 0,
                 Call.worker_init Ptr.worker Ptr.mm,
                 Call.worker_start Ptr.udp_sock Ptr.worker,
                 Call.uv_run uv_default_loop uv_run_mode.UV_RUN_DEFAULT ] ++ post := by
  refine ⟨startup_calls.take 6, (run_spec (sigState env) (udpState env) polls).calls ++
      if (main env polls).status = none then [] else cleanup_calls, ?_⟩
  rw [main_trace]; simp [startup_calls, run_call]

/-- C6 (as stated, refuted): when `uv_signal_init`, `uv_signal_start` and
`worker_init` all fail, `main` still calls `uv_run`. -/
theorem startup_failure_not_fatal :
    envStartupFails (Call.uv_signal_init uv_default_loop Ptr.sigint) ≠ 0 ∧
      envStartupFails (Call.uv_signal_start Ptr.sigint uv_signal_cb.signal_handler SIGINT) ≠ 0 ∧
      envStartupFails (Call.worker_init Ptr.worker Ptr.mm) ≠ 0 ∧
      Call.uv_run uv_default_loop uv_run_mode.UV_RUN_DEFAULT ∈
        (main envStartupFails []).trace := by
  refine ⟨by simp [envStartupFails], by simp [envStartupFails, uv_default_loop],
    by simp [envStartupFails, uv_default_loop], ?_⟩
  rw [main_trace]; simp [startup_calls, run_call]

/-- C6 (amended): when a startup step other than the bind reports failure
(`uv_signal_init`, `uv_signal_start` or `worker_init`), `main` does not look
at the result and does not exit: it makes the same startup calls as
otherwise and then calls `uv_run`, once. -/
theorem startup_failure_ignored (env : Env) (polls : List (List Int))
    (_h : env (Call.uv_signal_init uv_default_loop Ptr.sigint) ≠ 0 ∨
      env (Call.uv_signal_start Ptr.sigint uv_signal_cb.signal_handler SIGINT) ≠ 0 ∨
      env (Call.worker_init Ptr.worker Ptr.mm) ≠ 0) :
    (∃ post : List Call,
        (main env polls).trace =
          startup_calls ++ Call.uv_run uv_default_loop uv_run_mode.UV_RUN_DEFAULT :: post) ∧
      (main env polls).trace.countP Call.isRun = 1 := by
  refine ⟨⟨_, main_trace env polls⟩, ?_⟩
  rw [main_trace]
  rcases run_spec_calls (sigState env) (udpState env) polls with h | h <;>
  rw [h] <;> split_ifs <;>
  simp [startup_calls, run_call, handler_run, signal_handler, cleanup_calls, List.countP_cons,
    Call.isRun]

/-- C6 (amended), at a concrete run: the registration of the signal watcher
and the initialisation of the worker fail, and no signal arrives. -/
theorem startup_failure_ignored_witness :
    (envStartupFails (Call.uv_signal_init uv_default_loop Ptr.sigint) ≠ 0 ∨
      envStartupFails (Call.uv_signal_start Ptr.sigint uv_signal_cb.signal_handler SIGINT) ≠ 0 ∨
      envStartupFails (Call.worker_init Ptr.worker Ptr.mm) ≠ 0) ∧
      (main envStartupFails []).trace.countP Call.isRun = 1 :=
  ⟨Or.inl (by simp [envStartupFails]),
    (startup_failure_ignored envStartupFails [] (Or.inl (by simp [envStartupFails]))).2⟩

/-- What the callbacks did during the run, in terms of `uv_run` itself. -/
theorem run_calls_eq (env : Env) (polls : List (List Int)) :
    (uv_run polls uv_default_loop uv_run_mode.UV_RUN_DEFAULT (boot env).uv).calls =
      (run_spec (sigState env) (udpState env) polls).calls := by
  rw [boot_uv, uv_run_shape]

/-- C8: whenever the run of the loop returns, with whatever value, the worker
operations in the trace of `main` are exactly init, start, stop, deinit in
this order, each once; `worker_stop` is called on the socket the worker was
started on, after everything that happened during `uv_run`, and is followed
only by `worker_deinit`, the last call of the trace. -/
theorem worker_lifecycle (env : Env) (polls : List (List Int)) (r : Int)
    (h : (main env polls).status = some r) :
    (main env polls).trace.filter Call.isWorkerOp =
        [ Call.worker_init Ptr.worker Ptr.mm,
          Call.worker_start Ptr.udp_sock Ptr.worker,
          Call.worker_stop Ptr.udp_sock,
          Call.worker_deinit Ptr.worker ] ∧
      (main env polls).trace =
        startup_calls ++ [Call.uv_run uv_default_loop uv_run_mode.UV_RUN_DEFAULT] ++
          (uv_run polls uv_default_loop uv_run_mode.UV_RUN_DEFAULT (boot env).uv).calls ++
          [Call.worker_stop Ptr.udp_sock, Call.worker_deinit Ptr.worker] := by
  rw [run_calls_eq, main_trace, h]
  rcases run_spec_calls (sigState env) (udpState env) polls with h2 | h2 <;>
  rw [h2] <;>
  simp [startup_calls, run_call, handler_run, signal_handler, cleanup_calls, List.filter_cons,
    Call.isWorkerOp]

/-- C8, at a concrete run: every call succeeds and one SIGINT arrives. -/
theorem worker_lifecycle_witness :
    (main envOk [[SIGINT]]).status = some 1 ∧
      (main envOk [[SIGINT]]).trace.filter Call.isWorkerOp =
        [ Call.worker_init Ptr.worker Ptr.mm,
          Call.worker_start Ptr.udp_sock Ptr.worker,
          Call.worker_stop Ptr.udp_sock,
          Call.worker_deinit Ptr.worker ] :=
  ⟨by decide, (worker_lifecycle envOk [[SIGINT]] 1 (by decide)).1⟩

/-- C3 (as stated, refuted): with every startup call successful and one SIGINT
arriving while the loop waits, the handler runs once, `uv_run` returns, and
`main` exits with status 1, not 0: the UDP handle is still active when the
stop takes effect. -/
theorem sigint_exit_status_nonzero :
    (main envOk [[SIGINT]]).trace =
        startup_calls ++ [Call.uv_run uv_default_loop uv_run_mode.UV_RUN_DEFAULT,
          Call.signal_handler Ptr.sigint SIGINT,
          Call.uv_stop uv_default_loop,
          Call.uv_signal_stop Ptr.sigint,
          Call.worker_stop Ptr.udp_sock,
          Call.worker_deinit Ptr.worker] ∧
      (main envOk [[SIGINT]]).status = some 1 ∧
      (main envOk [[SIGINT]]).status ≠ some 0 := by
  decide

/-- The state in which `main` starts the loop has the SIGINT watcher started
exactly when both of its registration calls succeeded. -/
theorem sigState_of_find (env : Env)
    (h : (boot env).uv.find Ptr.sigint =
      some ⟨uv_default_loop, true, some (uv_signal_cb.signal_handler, SIGINT)⟩) :
    sigState env = some true := by
  rw [boot_uv] at h
  generalize sigState env = s at h ⊢
  generalize udpState env = u at h
  rcases s with _ | _ | _ <;> rcases u with _ | _ | _ <;>
  simp [shape, sigEntry, udpEntry, Uv.find] at h ⊢

/-- The state in which `main` starts the loop has the UDP handle active
exactly when its initialisation and the start of the worker succeeded. -/
theorem udpState_of_find (env : Env)
    (h : (boot env).uv.find Ptr.udp_sock = some ⟨uv_default_loop, true, none⟩) :
    udpState env = some true := by
  rw [boot_uv] at h
  generalize sigState env = s at h
  generalize udpState env = u at h ⊢
  rcases s with _ | _ | _ <;> rcases u with _ | _ | _ <;>
  simp [shape, sigEntry, udpEntry, Uv.find] at h ⊢

/-- C3 (amended): when a termination request (SIGINT) arrives while the loop
is running and no query is in flight (SIGINT is all that ever wakes the
loop), with the signal watcher and the listener socket of the worker
registered and active as `main` leaves them, the handler is invoked on the
watcher and stops the loop, `uv_run` returns, `main` performs its cleanup and
exits with status 1, not 0: `uv_run` returns non-zero when it is stopped while
a handle, here the listener socket, is still active, and `main` returns that
value. -/
theorem sigint_stops_loop (env : Env) (polls : List (List Int))
    (hsig : (boot env).uv.find Ptr.sigint =
      some ⟨uv_default_loop, true, some (uv_signal_cb.signal_handler, SIGINT)⟩)
    (hudp : (boot env).uv.find Ptr.udp_sock = some ⟨uv_default_loop, true, none⟩)
    (hne : polls ≠ [])
    (hint : ∀ batch ∈ polls, batch ≠ [] ∧ ∀ s ∈ batch, s = SIGINT) :
    (main env polls).trace =
        startup_calls ++ [Call.uv_run uv_default_loop uv_run_mode.UV_RUN_DEFAULT,
          Call.signal_handler Ptr.sigint SIGINT,
          Call.uv_stop uv_default_loop,
          Call.uv_signal_stop Ptr.sigint,
          Call.worker_stop Ptr.udp_sock,
          Call.worker_deinit Ptr.worker] ∧
      (main env polls).status = some 1 := by
  have hs : sigState env = some true := sigState_of_find env hsig
  have hu : udpState env = some true := udpState_of_find env hudp
  have ha : sigintArrives polls = true := by
    rcases polls with _ | ⟨b, rest⟩
    · exact absurd rfl hne
    · have hb := hint b (by simp)
      rcases b with _ | ⟨x, xs⟩
      · exact absurd rfl hb.1
      · have hx : x = SIGINT := hb.2 x (by simp)
        simp [sigintArrives, hx]
  rw [main_eq, hs, hu]
  simp [run_spec, ha, run_call, handler_run, signal_handler, cleanup_calls]

/-- C3 (amended), at a concrete run: every startup call succeeds and the loop
is woken once, by one SIGINT. -/
theorem sigint_stops_loop_witness :
    (boot envOk).uv.find Ptr.sigint =
        some ⟨uv_default_loop, true, some (uv_signal_cb.signal_handler, SIGINT)⟩ ∧
      (boot envOk).uv.find Ptr.udp_sock = some ⟨uv_default_loop, true, none⟩ ∧
      [[SIGINT]] ≠ [] ∧
      (∀ batch ∈ [[SIGINT]], batch ≠ [] ∧ ∀ s ∈ batch, s = SIGINT) ∧
      (main envOk [[SIGINT]]).status = some 1 :=
  ⟨by decide, by decide, by decide, by decide,
    (sigint_stops_loop envOk [[SIGINT]] (by decide) (by decide) (by decide) (by decide)).2⟩

/-- The handler, run on the SIGINT watcher, leaves the watcher deregistered
and the stop flag of the default loop set. -/
theorem exec_handler_shape (s u : Option Bool) (stop : List Ptr) (signum : Int) :
    (shape s u stop).exec (signal_handler Ptr.sigint signum) =
      shape (s.map (fun _ => false)) u (uv_default_loop :: stop) := by
  rcases s with _ | _ | _ <;> rcases u with _ | _ | _ <;>
  simp [shape, sigEntry, udpEntry, Uv.exec, signal_handler, Call.effect, Uv.modify]

/-- C9: whatever the startup calls reported and whatever signals arrive, in
whatever grouping, `signal_handler` is invoked at most once in a run of
`main`; it is not invoked at all when no SIGINT arrives; and once it has run
on the watcher `main` registered, that watcher is deregistered, so that no
further signal leads to an invocation. -/
theorem handler_at_most_once (env : Env) (polls : List (List Int)) :
    (main env polls).trace.countP Call.isHandlerEntry ≤ 1 ∧
      ((∀ batch ∈ polls, SIGINT ∉ batch) →
        (main env polls).trace.countP Call.isHandlerEntry = 0) ∧
      ∀ batch : List Int,
        (uv__signal_event uv_default_loop batch
          ((boot env).uv.exec (signal_handler Ptr.sigint SIGINT))).1 = [] := by
  refine ⟨?_, ?_, ?_⟩
  · rw [main_trace]
    rcases run_spec_calls (sigState env) (udpState env) polls with h | h <;>
    rw [h] <;> split_ifs <;>
    simp [startup_calls, run_call, handler_run, signal_handler, cleanup_calls,
      List.countP_cons, Call.isHandlerEntry]
  · intro hno
    have ha : sigintArrives polls = false := by
      simp only [sigintArrives, List.any_eq_false]
      intro b hb
      simpa using hno b hb
    have hc : (run_spec (sigState env) (udpState env) polls).calls = [] := by
      unfold run_spec
      rw [ha]
      split_ifs <;> simp_all
    rw [main_trace, hc]
    split_ifs <;>
    simp [startup_calls, run_call, cleanup_calls, List.countP_cons, Call.isHandlerEntry]
  · intro batch
    rw [boot_uv, exec_handler_shape, event_shape]
    rcases sigState env with _ | _ | _ <;> simp

/-- C9, at concrete runs: three SIGINTs in two polls lead to one invocation,
and a run in which only another signal arrives leads to none. -/
theorem handler_at_most_once_witness :
    (main envOk [[SIGINT, SIGINT], [SIGINT]]).trace.countP Call.isHandlerEntry ≤ 1 ∧
      (∀ batch ∈ [[(1 : Int)]], SIGINT ∉ batch) ∧
      (main envOk [[1]]).trace.countP Call.isHandlerEntry = 0 :=
  ⟨(handler_at_most_once envOk [[SIGINT, SIGINT], [SIGINT]]).1, by decide,
    (handler_at_most_once envOk [[1]]).2.1 (by decide)⟩

/-- C10: the handler stops the process-default loop whatever handle and signal
number it is given, and that is the loop `main` uses throughout: every call in
the trace of `main` that names a loop names the default loop, among them the
registration of the signal watcher, the initialisation of the UDP handle and
`uv_run`.  Consequently a stop issued by the handler takes effect on the loop
that is run: in any state, after the handler has run, `uv_run` on the loop of
`main` returns without dispatching anything. -/
theorem handler_stops_the_loop_main_runs (env : Env) (polls : List (List Int))
    (handle : Ptr) (signum : Int) :
    (signal_handler handle signum).filterMap Call.loopArg = [uv_default_loop] ∧
      (∀ c ∈ (main env polls).trace, ∀ l, c.loopArg = some l → l = uv_default_loop) ∧
      Call.uv_signal_init uv_default_loop Ptr.sigint ∈ (main env polls).trace ∧
      Call.uv_udp_init uv_default_loop Ptr.udp_sock ∈ (main env polls).trace ∧
      Call.uv_run uv_default_loop uv_run_mode.UV_RUN_DEFAULT ∈ (main env polls).trace ∧
      ∀ st : Uv,
        (uv_run polls uv_default_loop uv_run_mode.UV_RUN_DEFAULT
            (st.exec (signal_handler handle signum))).calls = [] ∧
          (uv_run polls uv_default_loop uv_run_mode.UV_RUN_DEFAULT
            (st.exec (signal_handler handle signum))).ret ≠ none := by
  refine ⟨by simp [signal_handler, Call.loopArg], ?_, ?_, ?_, ?_, ?_⟩
  · intro c hc l hl
    rw [main_trace] at hc
    rcases run_spec_calls (sigState env) (udpState env) polls with h | h <;>
    rw [h] at hc <;>
    split_ifs at hc <;>
    simp [startup_calls, run_call, handler_run, signal_handler, cleanup_calls] at hc <;>
    rcases hc with rfl | rfl | rfl | rfl | rfl | rfl | rfl | rfl | rfl | rfl | rfl | rfl | rfl |
      rfl | rfl <;>
    simp_all [Call.loopArg]
  · rw [main_trace]; simp [startup_calls]
  · rw [main_trace]; simp [startup_calls]
  · rw [main_trace]; simp [startup_calls, run_call]
  · intro st
    have h := uv_run_of_stopping polls uv_default_loop uv_run_mode.UV_RUN_DEFAULT _
      (stopping_after_handler st handle signum)
    exact ⟨h.1, by rw [h.2]; simp⟩

end Daemon
